import Mathlib

/-!
Verification development for the `gooplog` package of `go-mongo-etl`
(`src/gomongo/gooplog.go`), a MongoDB oplog tailer.  The Go code is
shallowly embedded: BSON selector documents become a small query AST with
a Mongo-semantics evaluator, the constructor `NewOpLogTailer` and the
dispatch/reconnect logic of `Start` become pure Lean functions over
explicit state, and goroutine bodies are modelled as the task descriptions
they schedule.  MongoDB regular-expression matching is external to the
repository, so the evaluator is parameterised by a matcher
`rm : pattern → options → subject → Bool`.
-/

namespace GoOplog

/-- A BSON scalar value as used by the selectors in `gooplog.go`:
strings and `bson.MongoTimestamp` (an `int64`, modelled as `Int`). -/
inductive BVal where
  | str (s : String)
  | ts (t : Int)
deriving DecidableEq, Repr

/-- `bson.M` payloads (the `o` field of an oplog entry): a generic
key-value document. -/
abbrev BsonM := List (String × BVal)

/-- A field condition inside a selector document:
direct equality (`{field: v}`), `{$gt: v}`, or `{$regex: pattern}` with
an options string (`bson.RegEx{pattern, options}`). -/
inductive FieldCond where
  | eqVal (v : BVal)
  | gtVal (v : BVal)
  | regexCond (pattern : String) (options : String)
deriving DecidableEq, Repr

mutual
/-- A selector document: a field condition, or a `$and` of clauses
(`bson.M{"$and": andClause}` over an array of clauses). -/
inductive QueryExpr where
  | field (name : String) (cond : FieldCond)
  | andQ (clauses : QueryList)

/-- The clause array of a `$and` selector. -/
inductive QueryList where
  | nil : QueryList
  | cons (q : QueryExpr) (rest : QueryList) : QueryList
end

/-- Mongo evaluation of a field condition against the (optional) value the
document holds at that field.  A missing field matches none of the
conditions used in this package; `$gt` compares only same-typed values
(Mongo type bracketing); `$regex` applies the engine `rm` to the stored
string. -/
def evalFieldCond (rm : String → String → String → Bool) :
    FieldCond → Option BVal → Bool
  | _, none => false
  | .eqVal v, some w => w == v
  | .gtVal (.ts b), some (.ts a) => decide (b < a)
  | .gtVal (.str b), some (.str a) => decide (b < a)
  | .gtVal _, some _ => false
  | .regexCond pat opts, some (.str s) => rm pat opts s
  | .regexCond _ _, some _ => false

mutual
/-- Mongo evaluation of a selector against a document, the document given
as a field-lookup function.  `$and` requires every clause to match. -/
def evalQuery (rm : String → String → String → Bool)
    (lookup : String → Option BVal) : QueryExpr → Bool
  | .field n c => evalFieldCond rm c (lookup n)
  | .andQ cs => evalQueryList rm lookup cs

/-- Evaluation of the clause array of a `$and`: all clauses must match. -/
def evalQueryList (rm : String → String → String → Bool)
    (lookup : String → Option BVal) : QueryList → Bool
  | .nil => true
  | .cons q rest => evalQuery rm lookup q && evalQueryList rm lookup rest
end

/-- The `opLogTailerInfo` record (the durable checkpoint):
`FilterRegex`, `StartReadingFromTime` (a `bson.MongoTimestamp`, `int64`),
`Label`. -/
structure opLogTailerInfo where
  FilterRegex : String
  StartReadingFromTime : Int
  Label : String
deriving DecidableEq, Repr

/-- The `o2` sub-document of an oplog entry (`ObjectId`). -/
structure ObjectId where
  Id : String
deriving DecidableEq, Repr

/-- An `opLogEntry` as decoded from the `local.oplog.rs` collection:
timestamp `Ts`, version `V`, operation `Op`, namespace `Ns`, payload `O`,
and inline object id `O2`. -/
structure opLogEntry where
  Ts : Int
  V : String
  Op : String
  Ns : String
  O : BsonM
  O2 : ObjectId
deriving DecidableEq, Repr

/-- Field lookup on an oplog entry for selector evaluation.  The selectors
built by this package consult only `ts` and `ns`; the remaining scalar
fields are exposed for completeness (`o` is a sub-document and is never
queried). -/
def entryLookup (e : opLogEntry) : String → Option BVal := fun n =>
  if n = "ts" then some (.ts e.Ts)
  else if n = "v" then some (.str e.V)
  else if n = "op" then some (.str e.Op)
  else if n = "ns" then some (.str e.Ns)
  else if n = "_id" then some (.str e.O2.Id)
  else none

/-- Field lookup on a stored `opLogTailerInfo` document. -/
def tailerInfoLookup (d : opLogTailerInfo) : String → Option BVal := fun n =>
  if n = "filterRegex" then some (.str d.FilterRegex)
  else if n = "startReadingFromTime" then some (.ts d.StartReadingFromTime)
  else if n = "label" then some (.str d.Label)
  else none

/-- `buildOpLogTailerInfoSelector` (gooplog.go:111-120): the checkpoint
lookup selector
`{$and: [{filterRegex: info.FilterRegex}, {label: info.Label}]}`. -/
def buildOpLogTailerInfoSelector (info : opLogTailerInfo) : QueryExpr :=
  .andQ (.cons (.field "filterRegex" (.eqVal (.str info.FilterRegex)))
    (.cons (.field "label" (.eqVal (.str info.Label))) .nil))

/-- `buildOpLogSelector` (gooplog.go:122-131): the log-entry selector
`{$and: [{ts: {$gt: info.StartReadingFromTime}},
         {ns: {$regex: bson.RegEx{info.FilterRegex, ""}}}]}`.
The regex options string is empty, which is MongoDB's case-sensitive
default. -/
def buildOpLogSelector (info : opLogTailerInfo) : QueryExpr :=
  .andQ (.cons (.field "ts" (.gtVal (.ts info.StartReadingFromTime)))
    (.cons (.field "ns" (.regexCond info.FilterRegex "")) .nil))

/-- The handler invocation the dispatcher goroutine performs: one of the
three `OpLogger` interface methods, carrying the entry payload. -/
inductive HandlerCall where
  | OnInsert (payload : BsonM)
  | OnUpdate (payload : BsonM)
  | OnDelete (payload : BsonM)
deriving DecidableEq, Repr

/-- The body of the dispatch goroutine (gooplog.go:148-160): the `switch`
on `result.Op` mapping `"u"` to `OnUpdate(result.O)`, `"i"` to
`OnInsert(result.O)`, `"d"` to `OnDelete(result.O)`; any other operation
string falls through the switch and invokes no handler method. -/
def dispatchEntry (e : opLogEntry) : Option HandlerCall :=
  match e.Op with
  | "u" => some (.OnUpdate e.O)
  | "i" => some (.OnInsert e.O)
  | "d" => some (.OnDelete e.O)
  | _ => none

/-- The body of the checkpoint-advance goroutine (gooplog.go:143-146):
`tailerInfo.StartReadingFromTime = result.Ts` followed by an update of the
durable record selected by `(filterRegex, label)` with the whole mutated
record. -/
def advanceCheckpoint (info : opLogTailerInfo) (ts : Int) : opLogTailerInfo :=
  { info with StartReadingFromTime := ts }

/-- The two tasks the loop body schedules for one fetched entry
(gooplog.go:141-160): a checkpoint advance to the entry timestamp and an
optional handler invocation. -/
structure EntryTasks where
  advanceTo : Int
  handlerCall : Option HandlerCall
deriving DecidableEq, Repr

/-- Per-entry processing in `Start`'s inner loop (gooplog.go:141-160):
both goroutines are spawned unconditionally for every fetched entry; the
advance task targets the entry timestamp, the handler task runs
`dispatchEntry`. -/
def processEntry (e : opLogEntry) : EntryTasks :=
  { advanceTo := e.Ts, handlerCall := dispatchEntry e }

/-- The parameters of a tailing cursor opened by `Start`: selector,
whether `LogReplay()` is applied, sort order, and the `Tail` timeout in
seconds, where a negative value is mgo's unbounded (block forever)
wait. -/
structure CursorConfig where
  selector : QueryExpr
  logReplay : Bool
  sort : String
  tailTimeoutSeconds : Int

/-- The initial cursor of `Start` (gooplog.go:137):
`collection.Find(buildOpLogSelector()).LogReplay().Sort("$natural").Tail(-1)` —
an unbounded tailable await cursor. -/
def initialCursor (info : opLogTailerInfo) : CursorConfig :=
  { selector := buildOpLogSelector info
    logReplay := true
    sort := "$natural"
    tailTimeoutSeconds := -1 }

/-- The reconnect cursor of `Start` (gooplog.go:174-175):
`collection.Find(buildOpLogSelector()).Sort("$natural").Tail(5 * time.Second)` —
the selector rebuilt from the current in-memory checkpoint and a bounded
five-second wait. -/
def reconnectCursor (info : opLogTailerInfo) : CursorConfig :=
  { selector := buildOpLogSelector info
    logReplay := false
    sort := "$natural"
    tailTimeoutSeconds := 5 }

/-- What the outer loop of `Start` does once the inner `iter.Next` loop
stops yielding entries. -/
inductive LoopStep where
  | continueSame
  | reconnect (cfg : CursorConfig)
  | terminate

/-- The outer-loop logic of `Start` after cursor exhaustion
(gooplog.go:163-176), on the observed `iter.Err() != nil` and
`iter.Timeout()` flags: a non-nil error returns from `Start`
(terminating the loop); a timeout continues on the same cursor; otherwise
a fresh bounded cursor is opened from the current checkpoint. -/
def startLoopStep (info : opLogTailerInfo) (errNonNil timedOut : Bool) :
    LoopStep :=
  if errNonNil then .terminate
  else if timedOut then .continueSame
  else .reconnect (reconnectCursor info)

/-- Two's-complement wraparound of Go `int64` arithmetic. -/
def int64wrap (n : Int) : Int := (n + 2 ^ 63) % 2 ^ 64 - 2 ^ 63

/-- The checkpoint seed position (gooplog.go:77):
`bson.MongoTimestamp(time.Now().Unix() << 32)`, the current wall-clock
Unix seconds shifted into the high 32 bits of MongoDB's native timestamp
type. -/
def mongoTimestampOfUnix (sec : Int) : Int := int64wrap (sec * 2 ^ 32)

/-- Outcome of the checkpoint lookup in `NewOpLogTailer`: the
more-than-one-document `log.Fatalf` (gooplog.go:88-90), a freshly created
record (gooplog.go:92-96), or the single existing record read back
(gooplog.go:97-104). -/
inductive InitResult where
  | fatalMultiple
  | created (info : opLogTailerInfo)
  | readExisting (info : opLogTailerInfo)
deriving DecidableEq, Repr

/-- The checkpoint carried by a non-fatal `InitResult`. -/
def InitResult.info : InitResult → Option opLogTailerInfo
  | .fatalMultiple => none
  | .created i => some i
  | .readExisting i => some i

/-- The checkpoint initialization of `NewOpLogTailer` (gooplog.go:75-104)
over the contents of the `gooplog.opLogTailerInfo` collection: seed a
record from `(filterRegex, now, label)`, count the documents matching
`buildOpLogTailerInfoSelector`; more than one is fatal, zero inserts the
seed, exactly one is read back unmodified.  Returns the outcome and the
updated collection contents. -/
def initializeTailer (rm : String → String → String → Bool)
    (docs : List opLogTailerInfo) (filterRegex label : String)
    (nowUnix : Int) : InitResult × List opLogTailerInfo :=
  let seeded : opLogTailerInfo :=
    { FilterRegex := filterRegex
      StartReadingFromTime := mongoTimestampOfUnix nowUnix
      Label := label }
  match docs.filter
      (fun d => evalQuery rm (tailerInfoLookup d)
        (buildOpLogTailerInfoSelector seeded)) with
  | [] => (.created seeded, docs ++ [seeded])
  | [m] => (.readExisting m, docs)
  | _ => (.fatalMultiple, docs)

/-- Direct phrasing of "the stored record has this filter and label",
used to state theorems about `initializeTailer`. -/
def matchesFilterLabel (d : opLogTailerInfo) (f l : String) : Bool :=
  d.FilterRegex == f && d.Label == l

/-- The package-level mutable state of `gooplog.go` (lines 57-59 plus the
dialed session): `session` (modelled by the URL it was dialed with),
`tailerInfo`, and the contents of the `opLogTailerInfo` collection behind
`tailerInfoCollection`.  These are globals of the package, not fields of
any tailer value. -/
structure GlobalState where
  sessionUrl : String
  tailerInfo : opLogTailerInfo
  tailerInfoDocs : List opLogTailerInfo
deriving DecidableEq, Repr

/-- The `OpLogTailer` struct (gooplog.go:30-34), generic in the handler
type.  `NewOpLogTailer` (gooplog.go:106-108) sets `session` to `nil` and
leaves `collectionToTail` unset; only `opLogger` carries data. -/
structure OpLogTailer (H : Type) where
  collectionToTail : Option String
  session : Option Unit
  opLogger : H

/-- `NewOpLogTailer` (gooplog.go:62-109) as a transformer of the package
globals: dial the session for `url`, run the checkpoint initialization
against the collection contents, store the resulting record in the global
`tailerInfo`, and return a struct holding only the handler.  `none`
models the `log.Fatalf` abort on a multiple-checkpoint collection. -/
def newOpLogTailer {H : Type} (rm : String → String → String → Bool)
    (g : GlobalState) (url filterRegex label : String) (h : H)
    (nowUnix : Int) : Option (OpLogTailer H × GlobalState) :=
  let r := initializeTailer rm g.tailerInfoDocs filterRegex label nowUnix
  match r.1.info with
  | none => none
  | some i =>
      some ({ collectionToTail := none, session := none, opLogger := h },
        { sessionUrl := url, tailerInfo := i, tailerInfoDocs := r.2 })

/-- The cursor `Start` opens (gooplog.go:133-137).  It is a method on an
`OpLogTailer` value, yet reads only the package globals: the global
`session` for the `local.oplog.rs` collection and the global `tailerInfo`
inside `buildOpLogSelector`; no field of `olt` contributes. -/
def startCursor {H : Type} (olt : OpLogTailer H) (g : GlobalState) :
    CursorConfig :=
  initialCursor g.tailerInfo

/-- The filter pattern carried by a log-entry selector, used to state
which checkpoint a cursor was actually built from. -/
def selectorPattern : QueryExpr → Option String
  | .andQ (.cons _ (.cons (.field _ (.regexCond p _)) .nil)) => some p
  | _ => none

/-- A constant regex matcher used to instantiate `rm` in concrete
witnesses; the checkpoint-lookup selector contains no regex condition, so
initialization results do not depend on this choice. -/
def rmFalse : String → String → String → Bool := fun _ _ _ => false

/-- A concrete checkpoint used in witnesses and counterexamples. -/
def demoInfo : opLogTailerInfo :=
  { FilterRegex := "orders.*", StartReadingFromTime := 7, Label := "etl1" }

/-- A concrete stored checkpoint record used in witnesses. -/
def demoCheckpoint : opLogTailerInfo :=
  { FilterRegex := "a", StartReadingFromTime := 3, Label := "b" }

/-- A concrete insert entry used in witnesses. -/
def demoEntryIns : opLogEntry :=
  { Ts := 10, V := "2", Op := "i", Ns := "orders.created"
    O := [("x", .str "1")], O2 := { Id := "id1" } }

/-- A concrete entry with an unrecognized operation kind. -/
def demoEntryNoop : opLogEntry :=
  { Ts := 11, V := "2", Op := "n", Ns := "orders.created"
    O := [], O2 := { Id := "id2" } }

/-- A concrete entry whose timestamp equals `demoInfo`'s checkpoint
position. -/
def demoEntryBoundary : opLogEntry :=
  { Ts := 7, V := "2", Op := "i", Ns := "orders.created"
    O := [], O2 := { Id := "id3" } }

/-- Pre-construction package globals for the two-tailer scenario. -/
def demoG0 : GlobalState :=
  { sessionUrl := ""
    tailerInfo := { FilterRegex := "", StartReadingFromTime := 0, Label := "" }
    tailerInfoDocs := [] }

/-- The package globals left by constructing a first tailer on `demoG0`
with url `"u1"`, filter `"a"`, label `"l1"` at time 10. -/
def demoG1 : GlobalState :=
  { sessionUrl := "u1"
    tailerInfo :=
      { FilterRegex := "a", StartReadingFromTime := mongoTimestampOfUnix 10
        Label := "l1" }
    tailerInfoDocs :=
      [{ FilterRegex := "a", StartReadingFromTime := mongoTimestampOfUnix 10
         Label := "l1" }] }

/-! ### Helper lemmas shared between claims -/

/-- String equality under the `BVal.str` constructor. -/
lemma bval_str_beq (a b : String) :
    (BVal.str a == BVal.str b) = (a == b) := by
  rw [Bool.eq_iff_iff]
  simp

/-- Evaluating the checkpoint-lookup selector against a stored record is
exactly the filter/label equality test. -/
lemma tailerInfo_selector_eval (rm : String → String → String → Bool)
    (d info : opLogTailerInfo) :
    evalQuery rm (tailerInfoLookup d) (buildOpLogTailerInfoSelector info) =
      matchesFilterLabel d info.FilterRegex info.Label := by
  simp [evalQuery, evalQueryList, evalFieldCond,
    buildOpLogTailerInfoSelector, tailerInfoLookup, matchesFilterLabel,
    bval_str_beq]

/-- Filtering the collection by the built checkpoint-lookup selector is
filtering by filter/label equality. -/
lemma filter_selector_eq (rm : String → String → String → Bool)
    (f l : String) (ts : Int) (docs : List opLogTailerInfo) :
    docs.filter (fun d => evalQuery rm (tailerInfoLookup d)
        (buildOpLogTailerInfoSelector
          { FilterRegex := f, StartReadingFromTime := ts, Label := l })) =
      docs.filter (fun d => matchesFilterLabel d f l) := by
  apply List.filter_congr
  intro d _
  exact tailerInfo_selector_eval rm d _

/-- `initializeTailer` rewritten over the plain filter/label match of the
collection. -/
lemma initializeTailer_eq (rm : String → String → String → Bool)
    (docs : List opLogTailerInfo) (f l : String) (now : Int) :
    initializeTailer rm docs f l now =
      match docs.filter (fun d => matchesFilterLabel d f l) with
      | [] =>
          (.created
              { FilterRegex := f, StartReadingFromTime := mongoTimestampOfUnix now
                Label := l },
            docs ++
              [{ FilterRegex := f, StartReadingFromTime := mongoTimestampOfUnix now
                 Label := l }])
      | [m] => (.readExisting m, docs)
      | _ => (.fatalMultiple, docs) := by
  simp only [initializeTailer]
  rw [filter_selector_eq]

/-! ### Claims -/

/-- C1: for a checkpoint with position `P` and pattern `R`, the log-entry
selector built by `buildOpLogSelector` matches an entry under any regex
engine `rm` iff the entry position is strictly greater than `P` and the
engine matches the entry namespace against `R` with empty options
(MongoDB's case-sensitive default); in particular an entry whose position
equals `P` exactly is excluded. -/
theorem selector_matches_iff_gt_and_regex
    (rm : String → String → String → Bool) (info : opLogTailerInfo)
    (e : opLogEntry) :
    (evalQuery rm (entryLookup e) (buildOpLogSelector info) =
      (decide (info.StartReadingFromTime < e.Ts) &&
        rm info.FilterRegex "" e.Ns)) ∧
    (e.Ts = info.StartReadingFromTime →
      evalQuery rm (entryLookup e) (buildOpLogSelector info) = false) := by
  constructor
  · simp [evalQuery, evalQueryList, evalFieldCond, buildOpLogSelector,
      entryLookup]
  · intro h
    simp [evalQuery, evalQueryList, evalFieldCond, buildOpLogSelector,
      entryLookup, h]

/-- Witness for C1 at a concrete checkpoint and a concrete entry whose
position equals the checkpoint position: the selector excludes it. -/
theorem selector_matches_iff_gt_and_regex_witness :
    demoEntryBoundary.Ts = demoInfo.StartReadingFromTime ∧
    evalQuery rmFalse (entryLookup demoEntryBoundary)
      (buildOpLogSelector demoInfo) = false :=
  ⟨rfl,
    (selector_matches_iff_gt_and_regex rmFalse demoInfo demoEntryBoundary).2
      rfl⟩

/-- C2: the dispatch switch invokes exactly the handler method matching
the operation kind — `"i"` only `OnInsert`, `"u"` only `OnUpdate`, `"d"`
only `OnDelete` — with the entry payload `e.O` unmodified, and an entry
with any other operation string invokes no handler method. -/
theorem dispatch_routing (e : opLogEntry) :
    (e.Op = "i" → dispatchEntry e = some (.OnInsert e.O)) ∧
    (e.Op = "u" → dispatchEntry e = some (.OnUpdate e.O)) ∧
    (e.Op = "d" → dispatchEntry e = some (.OnDelete e.O)) ∧
    (e.Op ≠ "i" → e.Op ≠ "u" → e.Op ≠ "d" → dispatchEntry e = none) := by
  refine ⟨fun h => by simp [dispatchEntry, h],
    fun h => by simp [dispatchEntry, h],
    fun h => by simp [dispatchEntry, h],
    fun h1 h2 h3 => ?_⟩
  unfold dispatchEntry
  split <;> simp_all

/-- Witness for C2: a concrete insert entry dispatches `OnInsert` with its
payload, and a concrete entry with operation `"n"` dispatches nothing. -/
theorem dispatch_routing_witness :
    dispatchEntry demoEntryIns = some (.OnInsert demoEntryIns.O) ∧
    dispatchEntry demoEntryNoop = none :=
  ⟨(dispatch_routing demoEntryIns).1 rfl,
    (dispatch_routing demoEntryNoop).2.2.2 (by decide) (by decide)
      (by decide)⟩

/-- C7: when the cursor stops yielding with no error and a soft timeout,
the loop continues on the same cursor — no termination, no reconnect. -/
theorem soft_timeout_continues (info : opLogTailerInfo) :
    startLoopStep info false true = LoopStep.continueSame := rfl

/-- C8: the initial cursor of `Start` uses mgo's unbounded tail wait
(`Tail(-1)`, negative meaning block forever), while the reconnect cursor
uses a bounded five-second wait and a selector rebuilt from the current
in-memory checkpoint. -/
theorem cursor_wait_windows (info : opLogTailerInfo) :
    (initialCursor info).tailTimeoutSeconds = -1 ∧
    (initialCursor info).tailTimeoutSeconds < 0 ∧
    (initialCursor info).selector = buildOpLogSelector info ∧
    (reconnectCursor info).tailTimeoutSeconds = 5 ∧
    (reconnectCursor info).selector = buildOpLogSelector info :=
  ⟨rfl, by norm_num [initialCursor], rfl, rfl, rfl⟩

/-- C3 counterexample: at a concrete checkpoint, a cursor stop with a hard
error (`iter.Err() != nil`, no timeout) makes `Start` return — the loop
terminates instead of reconnecting, contradicting the claim that a hard
error triggers an unbounded reconnect. -/
theorem hard_error_terminates_cex :
    startLoopStep demoInfo true false = LoopStep.terminate := rfl

/-- C3 amended: only an error-free, timeout-free cursor exhaustion makes
the loop reconnect — with the selector rebuilt from the current in-memory
checkpoint and a bounded five-second wait — while any hard error reported
by the cursor terminates the loop (`Start` returns). -/
theorem start_loop_reconnect_policy (info : opLogTailerInfo)
    (errNonNil timedOut : Bool) :
    (errNonNil = true →
      startLoopStep info errNonNil timedOut = LoopStep.terminate) ∧
    (errNonNil = false → timedOut = false →
      startLoopStep info errNonNil timedOut =
        LoopStep.reconnect (reconnectCursor info) ∧
      (reconnectCursor info).selector = buildOpLogSelector info ∧
      (reconnectCursor info).tailTimeoutSeconds = 5) := by
  refine ⟨fun he => ?_, fun he ht => ⟨?_, rfl, rfl⟩⟩ <;>
    simp [startLoopStep, he]
  simp [ht]

/-- Witness for C3 (amended) at a concrete checkpoint: a hard error
terminates, and an error-free non-timeout exhaustion reconnects. -/
theorem start_loop_reconnect_policy_witness :
    startLoopStep demoInfo true true = LoopStep.terminate ∧
    startLoopStep demoInfo false false =
      LoopStep.reconnect (reconnectCursor demoInfo) :=
  ⟨(start_loop_reconnect_policy demoInfo true true).1 rfl,
    ((start_loop_reconnect_policy demoInfo false false).2 rfl rfl).1⟩

/-- C9: the checkpoint-advance task is scheduled for every fetched entry
regardless of operation kind, targeting the entry's own timestamp — in
particular for an unrecognized kind, which schedules no handler call —
and a selector rebuilt from the advanced checkpoint no longer matches
that entry, so a dropped entry is not redelivered after a clean
restart. -/
theorem advance_scheduled_regardless_of_kind (e : opLogEntry)
    (rm : String → String → String → Bool) (info : opLogTailerInfo) :
    (processEntry e).advanceTo = e.Ts ∧
    (e.Op ≠ "i" → e.Op ≠ "u" → e.Op ≠ "d" →
      (processEntry e).handlerCall = none) ∧
    evalQuery rm (entryLookup e)
      (buildOpLogSelector (advanceCheckpoint info e.Ts)) = false := by
  refine ⟨rfl, fun h1 h2 h3 => ?_, ?_⟩
  · show dispatchEntry e = none
    unfold dispatchEntry
    split <;> simp_all
  · simp [evalQuery, evalQueryList, evalFieldCond, buildOpLogSelector,
      entryLookup, advanceCheckpoint]

/-- Witness for C9: the concrete unrecognized-kind entry still schedules a
checkpoint advance to its own timestamp while scheduling no handler
call. -/
theorem advance_scheduled_regardless_of_kind_witness :
    (processEntry demoEntryNoop).advanceTo = demoEntryNoop.Ts ∧
    (processEntry demoEntryNoop).handlerCall = none :=
  ⟨(advance_scheduled_regardless_of_kind demoEntryNoop rmFalse demoInfo).1,
    (advance_scheduled_regardless_of_kind demoEntryNoop rmFalse
      demoInfo).2.1 (by decide) (by decide) (by decide)⟩

/-- C4: the checkpoint initialization aborts with the
multiple-checkpoints fatal iff more than one stored record matches the
`(filterPattern, label)` pair; with zero or one matching record it does
not fail for this reason. -/
theorem multiple_checkpoints_fatal (rm : String → String → String → Bool)
    (docs : List opLogTailerInfo) (f l : String) (now : Int) :
    (initializeTailer rm docs f l now).1 = InitResult.fatalMultiple ↔
      1 < (docs.filter (fun d => matchesFilterLabel d f l)).length := by
  rw [initializeTailer_eq]
  rcases h : docs.filter (fun d => matchesFilterLabel d f l) with
    _ | ⟨m, _ | ⟨m2, rest⟩⟩ <;> simp [h]

/-- C5: with zero matching records, initialization creates and persists a
record seeded at the current wall-clock time in MongoDB's native
timestamp encoding; with exactly one it returns that record unmodified
and leaves the store unchanged; consequently a second initialization with
no intervening changes yields the identical checkpoint record. -/
theorem initialize_idempotent (rm : String → String → String → Bool)
    (docs : List opLogTailerInfo) (f l : String) (n1 n2 : Int) :
    ((docs.filter fun d => matchesFilterLabel d f l) = [] →
      initializeTailer rm docs f l n1 =
        (InitResult.created
            { FilterRegex := f
              StartReadingFromTime := mongoTimestampOfUnix n1, Label := l },
          docs ++
            [{ FilterRegex := f
               StartReadingFromTime := mongoTimestampOfUnix n1
               Label := l }])) ∧
    (∀ m, (docs.filter fun d => matchesFilterLabel d f l) = [m] →
      initializeTailer rm docs f l n1 = (InitResult.readExisting m, docs)) ∧
    ((initializeTailer rm docs f l n1).1 ≠ InitResult.fatalMultiple →
      ((initializeTailer rm (initializeTailer rm docs f l n1).2 f l n2).1).info
        = ((initializeTailer rm docs f l n1).1).info) := by
  refine ⟨fun h => by rw [initializeTailer_eq, h],
    fun m h => by rw [initializeTailer_eq, h], fun hne => ?_⟩
  rcases h : docs.filter (fun d => matchesFilterLabel d f l) with
    _ | ⟨m, _ | ⟨m2, rest⟩⟩
  · have h1 : initializeTailer rm docs f l n1 =
        (InitResult.created
            { FilterRegex := f
              StartReadingFromTime := mongoTimestampOfUnix n1, Label := l },
          docs ++
            [{ FilterRegex := f
               StartReadingFromTime := mongoTimestampOfUnix n1
               Label := l }]) := by
      rw [initializeTailer_eq, h]
    rw [h1]
    have h2 : ((docs ++
        [({ FilterRegex := f
            StartReadingFromTime := mongoTimestampOfUnix n1
            Label := l } : opLogTailerInfo)]).filter
          fun d => matchesFilterLabel d f l) =
        [{ FilterRegex := f
           StartReadingFromTime := mongoTimestampOfUnix n1
           Label := l }] := by
      rw [List.filter_append, h]
      simp [matchesFilterLabel]
    rw [initializeTailer_eq, h2]
    simp [InitResult.info]
  · have h1 : initializeTailer rm docs f l n1 =
        (InitResult.readExisting m, docs) := by
      rw [initializeTailer_eq, h]
    rw [h1]
    rw [initializeTailer_eq, h]
  · exfalso
    apply hne
    rw [initializeTailer_eq, h]

/-- Witness for C5 at concrete inputs: an empty store creates the seeded
record, a one-record store returns that record with the store unchanged,
and re-initializing after the creating run returns the identical
checkpoint. -/
theorem initialize_idempotent_witness :
    initializeTailer rmFalse [] "a" "b" 5 =
      (InitResult.created
          { FilterRegex := "a", StartReadingFromTime := mongoTimestampOfUnix 5
            Label := "b" },
        [{ FilterRegex := "a", StartReadingFromTime := mongoTimestampOfUnix 5
           Label := "b" }]) ∧
    initializeTailer rmFalse [demoCheckpoint] "a" "b" 5 =
      (InitResult.readExisting demoCheckpoint, [demoCheckpoint]) ∧
    ((initializeTailer rmFalse (initializeTailer rmFalse [] "a" "b" 5).2
        "a" "b" 9).1).info = ((initializeTailer rmFalse [] "a" "b" 5).1).info :=
  ⟨(initialize_idempotent rmFalse [] "a" "b" 5 9).1 rfl,
    (initialize_idempotent rmFalse [demoCheckpoint] "a" "b" 5 9).2.1
      demoCheckpoint (by decide),
    (initialize_idempotent rmFalse [] "a" "b" 5 9).2.2 (by decide)⟩

/-- C10 counterexample: a first tailer constructed with url `"u1"`,
filter `"a"`, label `"l1"`, then a second with url `"u2"`, filter `"b"`,
label `"l2"`.  After the second construction, the cursor the FIRST tailer
would open reads the package globals and therefore carries filter `"b"`
over the session dialed to `"u2"` — the instances do not keep independent
checkpoint state, filter, or session. -/
theorem two_tailers_share_state_cex :
    ((newOpLogTailer rmFalse demoG0 "u1" "a" "l1" (0 : Nat) 10).bind
      fun p1 => (newOpLogTailer rmFalse p1.2 "u2" "b" "l2" (1 : Nat) 20).map
        fun p2 => (selectorPattern (startCursor p1.1 p2.2).selector,
          p2.2.sessionUrl)) = some (some "b", "u2") ∧
    ("b" : String) ≠ "a" ∧ ("u2" : String) ≠ "u1" :=
  ⟨rfl, by decide, by decide⟩

/-- C10 amended: an `OpLogTailer` value carries only the handler
reference (its `session` field is set to `nil` and `collectionToTail` is
never set); the session, checkpoint collection handle, filter pattern,
label, and checkpoint record live in package-level globals that every
construction overwrites, and the cursor `Start` opens is determined by
those globals alone, identically for every instance in the process. -/
theorem tailer_state_is_global {H : Type}
    (rm : String → String → String → Bool) (g : GlobalState)
    (url f l : String) (h : H) (now : Int) (t : OpLogTailer H)
    (g' : GlobalState) :
    (newOpLogTailer rm g url f l h now = some (t, g') →
      t.collectionToTail = none ∧ t.session = none ∧ t.opLogger = h ∧
      g'.sessionUrl = url) ∧
    (∀ (t1 t2 : OpLogTailer H) (g0 : GlobalState),
      startCursor t1 g0 = startCursor t2 g0) := by
  constructor
  · intro heq
    simp only [newOpLogTailer] at heq
    rcases hi : (initializeTailer rm g.tailerInfoDocs f l now).1.info with
      _ | i
    · rw [hi] at heq
      simp at heq
    · rw [hi] at heq
      simp only [Option.some.injEq, Prod.mk.injEq] at heq
      obtain ⟨ht, hg⟩ := heq
      subst ht
      subst hg
      exact ⟨rfl, rfl, rfl, rfl⟩
  · intro t1 t2 g0
    rfl

/-- Witness for C10 (amended): the concrete first construction on empty
globals yields a struct holding only the handler, with the url recorded
in the shared globals. -/
theorem tailer_state_is_global_witness :
    (⟨none, none, (0 : Nat)⟩ : OpLogTailer Nat).collectionToTail = none ∧
    (⟨none, none, (0 : Nat)⟩ : OpLogTailer Nat).session = none ∧
    (⟨none, none, (0 : Nat)⟩ : OpLogTailer Nat).opLogger = 0 ∧
    demoG1.sessionUrl = "u1" :=
  (tailer_state_is_global rmFalse demoG0 "u1" "a" "l1" 0 10
    ⟨none, none, 0⟩ demoG1).1 rfl

end GoOplog
